import Mathlib

/-!
Verification of `src/ai_medical_imaging.py`, function `analyze_medical_image`.

The handler is embedded shallowly:
* a PIL image is a color mode plus an abstract pixel payload;
* the fixed transient path `"temp_medical_image.png"` is modelled as a state
  of type `Option SavedFile` (`none` = the file does not exist on disk);
* the two fallible effects inside the `try` block — `img.save(temp_path)` and
  the external `medical_agent.run(...)` call — are resolved by an environment
  `Env` fixed per invocation (each is either a normal return or a raised
  exception carrying `str(e)`);
* every external model call is recorded in a trace, with the prompt sent and
  the state of the transient path at the moment of the call.
-/

set_option autoImplicit false
set_option maxRecDepth 8192

/-- A decoded PIL image (`PIL.Image.Image`): a color mode string such as
`"L"`, `"RGB"`, `"RGBA"`, plus an abstract pixel payload identifier. -/
structure PILImage where
  mode : String
  content : Nat
deriving DecidableEq, Repr

/-- A numpy pixel array (`np.ndarray`): height × width × channels, with an
abstract payload. `channels = 0` encodes a 2-D (grayscale) array. -/
structure NDArray where
  height : Nat
  width : Nat
  channels : Nat
  data : Nat
deriving DecidableEq, Repr

namespace Image

/-- `PIL.Image.fromarray`: decode a numpy array into a PIL image; the color
mode of the result is determined by the array shape (2-D → `"L"`, three
channels → `"RGB"`, four → `"RGBA"`, anything else → `"I"`). -/
def fromarray (a : NDArray) : PILImage :=
  { mode :=
      if a.channels = 0 then "L"
      else if a.channels = 3 then "RGB"
      else if a.channels = 4 then "RGBA"
      else "I",
    content := a.data }

end Image

/-- `img.convert(m)`: return the image re-encoded in color mode `m`; the
pixel payload is preserved. -/
def PILImage.convert (img : PILImage) (m : String) : PILImage :=
  { img with mode := m }

/-- The contents of the file stored at the fixed transient path
`"temp_medical_image.png"`: its color mode and pixel payload. -/
structure SavedFile where
  mode : String
  content : Nat
deriving DecidableEq, Repr

/-- `img.save(temp_path)`: the state of the transient path after a
successful save — the file now holds this image, overwriting any prior
file of that name. -/
def PILImage.save (img : PILImage) : Option SavedFile :=
  some { mode := img.mode, content := img.content }

/-- The `image` argument Gradio passes to the handler: `None`, a numpy
array, a PIL image, or any other object. -/
inductive ImageInput where
  | null
  | array (a : NDArray)
  | pil (img : PILImage)
  | other (desc : String)
deriving DecidableEq, Repr

/-- The input is one of the two recognized image representations
(`np.ndarray` or `PIL.Image.Image`). -/
def ImageInput.isValidImage : ImageInput → Bool
  | .array _ => true
  | .pil _ => true
  | _ => false

/-- The object returned by `medical_agent.run`: only its `.content` text is
consumed by the handler. -/
structure RunResponse where
  content : String
deriving DecidableEq, Repr

/-- Outcome of a fallible Python step: a normal return, or a raised
exception carrying the text `str(e)`. -/
inductive ExcOr (α : Type) where
  | ok (a : α)
  | exc (msg : String)
deriving DecidableEq, Repr

/-- The environment of one handler invocation: whether `img.save(temp_path)`
raises (and with what message), and what the external `medical_agent.run`
call does (returns a response, or raises). -/
structure Env where
  saveExc : Option String
  modelResult : ExcOr RunResponse
deriving DecidableEq, Repr

/-- The observable outcome of one handler invocation: the returned string,
the state of the transient path at return, and the trace of external model
calls (prompt sent, and transient-path state at the moment of the call). -/
structure RunResult where
  ret : String
  temp : Option SavedFile
  calls : List (String × Option SavedFile)
deriving DecidableEq, Repr

/-- Whitespace as recognized by Python `str.strip()` — exactly the 29 code
points for which `str.isspace()` holds: tab through carriage return
(U+0009–U+000D), the information separators U+001C–U+001F, space, next line
U+0085, no-break space U+00A0, ogham space mark U+1680, the typographic
spaces U+2000–U+200A, line and paragraph separators U+2028/U+2029, narrow
no-break space U+202F, medium mathematical space U+205F, and ideographic
space U+3000. -/
def isPySpace (c : Char) : Bool :=
  (0x9 ≤ c.val && c.val ≤ 0xd)
    || (0x1c ≤ c.val && c.val ≤ 0x1f)
    || c.val == 0x20 || c.val == 0x85 || c.val == 0xa0 || c.val == 0x1680
    || (0x2000 ≤ c.val && c.val ≤ 0x200a)
    || c.val == 0x2028 || c.val == 0x2029 || c.val == 0x202f
    || c.val == 0x205f || c.val == 0x3000

/-- Python `s.strip()`: remove leading and trailing whitespace. -/
def String.strip (s : String) : String :=
  ⟨((s.data.dropWhile isPySpace).reverse.dropWhile isPySpace).reverse⟩

/-- The fixed multi-section instruction template `ANALYSIS_QUERY`. -/
def ANALYSIS_QUERY : String :=
  "Analyze this medical image as a highly skilled medical imaging expert with extensive knowledge in radiology and diagnostic imaging. Follow this structure:\n\n1. Image Type & Region Analysis:\n* Identify the imaging modality used (X-ray/MRI/CT/Ultrasound/etc.)\n* Describe the anatomical region shown and patient positioning\n* Assess image quality and technical adequacy\n\n2. Key Findings Analysis:\n* Describe all primary observations in detail\n* Document any abnormalities with precise descriptions\n* Note relevant measurements and densities\n* Specify locations, sizes, shapes, and key characteristics\n* Indicate severity level (Normal/Mild/Moderate/Severe)\n\n3. Diagnostic Assessment:\n* State your primary diagnosis and confidence level\n* List potential differential diagnoses in order of likelihood\n* Provide evidence from the image supporting each diagnosis\n* Highlight any urgent or critical findings requiring immediate attention\n\n4. Patient-Friendly Summary:\n* Explain the findings in clear, simple language\n* Define any necessary medical terms\n* Use helpful analogies where appropriate\n* Address likely patient concerns\n\n5. Research Context:\n* Search recent medical literature for similar cases using DuckDuckGo\n* Find relevant treatment protocols\n* Identify recent technological advances in this area\n* Provide 2-3 key medical references supporting your analysis\n\nPlease provide a comprehensive analysis covering ALL sections above."

/-- The prompt actually sent: `ANALYSIS_QUERY` concatenated with the
reminder clause (line 89 of the source). -/
def fullPrompt : String :=
  ANALYSIS_QUERY ++ "\n\nIMPORTANT: Please ensure you address ALL sections (1-5) in your analysis."

/-- Body of the `try` block once the input has been decoded to a PIL image
`img0` (source lines 80–109): convert to RGB, save to the transient path,
issue the single external call, clean up, then apply the length check; any
exception is caught by the `except` branch, which removes the transient
file if present and returns the formatted error string. -/
def analyzeDecoded (env : Env) (img0 : PILImage) : RunResult :=
  let img := img0.convert "RGB"
  match env.saveExc with
  | some e =>
      -- `img.save` raised: nothing was written; `except` removes the
      -- transient file if it exists and returns the formatted message.
      { ret := "Error during analysis: " ++ e, temp := none, calls := [] }
  | none =>
      let fs1 := img.save
      match env.modelResult with
      | .exc e =>
          { ret := "Error during analysis: " ++ e, temp := none,
            calls := [(fullPrompt, fs1)] }
      | .ok response =>
          -- lines 93–95: cleanup before the length check
          if (response.content.strip).length < 100 then
            { ret := "Error: Analysis seems incomplete. Please try again.",
              temp := none, calls := [(fullPrompt, fs1)] }
          else
            { ret := response.content, temp := none,
              calls := [(fullPrompt, fs1)] }

/-- The handler `analyze_medical_image` (source lines 58–109). `fs0` is the
state of the transient path when the invocation starts. -/
def analyze_medical_image (env : Env) (fs0 : Option SavedFile)
    (image : ImageInput) : RunResult :=
  match image with
  | .null =>
      { ret := "Please upload an image to begin analysis.", temp := fs0,
        calls := [] }
  | .array a => analyzeDecoded env (Image.fromarray a)
  | .pil img => analyzeDecoded env img
  | .other _ =>
      { ret := "Invalid image format", temp := fs0, calls := [] }

/-- A concrete 200-character markdown analysis, used as a model response in
witnesses; it has no leading or trailing whitespace, so its stripped length
is also 200. -/
def md200 : String :=
  "# Medical Image Analysis\n\n1. Image Type: chest X-ray, PA view, adequate quality.\n2. Key Findings: clear lung fields, no consolidation.\n3. Diagnostic Assessment: normal study.\n4. Summary: all clear. OK"

/-- A concrete analysis string whose stripped length is exactly 100. -/
def summary100 : String :=
  "1. Image Type: chest X-ray. 2. Findings: clear lung fields. 3. Assessment: normal study. 4. Summary."

theorem analyzeDecoded_temp_none (env : Env) (img0 : PILImage) :
    (analyzeDecoded env img0).temp = none := by
  unfold analyzeDecoded
  cases env.saveExc with
  | some e => rfl
  | none =>
      cases env.modelResult with
      | exc e => rfl
      | ok r =>
          dsimp only
          split <;> rfl

/-- C2: every invocation on a recognized image — ending in success, in the
incomplete-response validation failure, or in a caught exception — leaves
the transient path `"temp_medical_image.png"` absent from disk on return. -/
theorem C2_temp_file_removed (env : Env) (fs0 : Option SavedFile)
    (image : ImageInput) (himg : image.isValidImage = true) :
    (analyze_medical_image env fs0 image).temp = none := by
  cases image with
  | null => simp [ImageInput.isValidImage] at himg
  | other d => simp [ImageInput.isValidImage] at himg
  | array a => exact analyzeDecoded_temp_none env (Image.fromarray a)
  | pil img => exact analyzeDecoded_temp_none env img

theorem C2_witness :
    ((ImageInput.array ⟨10, 10, 0, 0⟩).isValidImage = true) ∧
    (analyze_medical_image ⟨none, .ok ⟨"ok"⟩⟩ none
        (.array ⟨10, 10, 0, 0⟩)).temp = none :=
  ⟨by decide, C2_temp_file_removed ⟨none, .ok ⟨"ok"⟩⟩ none
      (.array ⟨10, 10, 0, 0⟩) (by decide)⟩

/-- C3: a `None` image returns the literal upload prompt and makes no
external model call; the transient path is untouched. -/
theorem C3_null_image_no_call (env : Env) (fs0 : Option SavedFile) :
    (analyze_medical_image env fs0 .null).ret =
        "Please upload an image to begin analysis." ∧
      (analyze_medical_image env fs0 .null).calls = [] :=
  ⟨rfl, rfl⟩

/-- C6: an input that is neither a numpy array nor a PIL image (and not
`None`) returns `"Invalid image format"` and makes no external call. -/
theorem C6_invalid_format_no_call (env : Env) (fs0 : Option SavedFile)
    (d : String) :
    (analyze_medical_image env fs0 (.other d)).ret = "Invalid image format" ∧
      (analyze_medical_image env fs0 (.other d)).calls = [] :=
  ⟨rfl, rfl⟩

/-- C1: whenever the model is actually reached and its response content has
stripped length strictly below 100, the handler returns exactly the literal
incomplete-analysis error string, not the raw content. -/
theorem C1_short_response_replaced (env : Env) (fs0 : Option SavedFile)
    (image : ImageInput) (resp : RunResponse)
    (himg : image.isValidImage = true)
    (hsave : env.saveExc = none)
    (hrun : env.modelResult = .ok resp)
    (hlen : (resp.content.strip).length < 100) :
    (analyze_medical_image env fs0 image).ret =
      "Error: Analysis seems incomplete. Please try again." := by
  cases image with
  | null => simp [ImageInput.isValidImage] at himg
  | other d => simp [ImageInput.isValidImage] at himg
  | array a => simp [analyze_medical_image, analyzeDecoded, hsave, hrun, hlen]
  | pil img => simp [analyze_medical_image, analyzeDecoded, hsave, hrun, hlen]

theorem C1_witness :
    (("ok".strip).length < 100) ∧
    (analyze_medical_image ⟨none, .ok ⟨"ok"⟩⟩ none
        (.array ⟨10, 10, 0, 0⟩)).ret =
      "Error: Analysis seems incomplete. Please try again." :=
  ⟨by decide, C1_short_response_replaced ⟨none, .ok ⟨"ok"⟩⟩ none
      (.array ⟨10, 10, 0, 0⟩) ⟨"ok"⟩ (by decide) rfl rfl (by decide)⟩

theorem analyzeDecoded_calls_of_save_ok (env : Env) (img0 : PILImage)
    (hsave : env.saveExc = none) :
    (analyzeDecoded env img0).calls =
      [(fullPrompt, some ⟨"RGB", img0.content⟩)] := by
  unfold analyzeDecoded
  rw [hsave]
  cases env.modelResult with
  | exc e => rfl
  | ok r =>
      dsimp only
      split <;> rfl

/-- C4: for every recognized input image (numpy array or PIL image, any
color mode) whose save succeeds, the transient path holds a 3-channel RGB
file at the moment of the external call, whatever file was there before. -/
theorem C4_rgb_file_at_call (env : Env) (fs0 : Option SavedFile)
    (image : ImageInput) (himg : image.isValidImage = true)
    (hsave : env.saveExc = none) :
    ∃ c, (analyze_medical_image env fs0 image).calls =
      [(fullPrompt, some ⟨"RGB", c⟩)] := by
  cases image with
  | null => simp [ImageInput.isValidImage] at himg
  | other d => simp [ImageInput.isValidImage] at himg
  | array a =>
      exact ⟨a.data, analyzeDecoded_calls_of_save_ok env (Image.fromarray a) hsave⟩
  | pil img =>
      exact ⟨img.content, analyzeDecoded_calls_of_save_ok env img hsave⟩

theorem C4_witness :
    ((ImageInput.pil ⟨"RGBA", 7⟩).isValidImage = true) ∧
    (∃ c, (analyze_medical_image ⟨none, .ok ⟨"ok"⟩⟩ (some ⟨"L", 3⟩)
        (.pil ⟨"RGBA", 7⟩)).calls = [(fullPrompt, some ⟨"RGB", c⟩)]) :=
  ⟨by decide, C4_rgb_file_at_call ⟨none, .ok ⟨"ok"⟩⟩ (some ⟨"L", 3⟩)
      (.pil ⟨"RGBA", 7⟩) (by decide) rfl⟩

/-- C5: whenever the model is reached and its response content has stripped
length at least 100, the handler returns that content exactly, unmodified
(the length check reads the stripped text, the return value is the original
content). -/
theorem C5_long_response_returned_unmodified (env : Env)
    (fs0 : Option SavedFile) (image : ImageInput) (resp : RunResponse)
    (himg : image.isValidImage = true)
    (hsave : env.saveExc = none)
    (hrun : env.modelResult = .ok resp)
    (hlen : 100 ≤ (resp.content.strip).length) :
    (analyze_medical_image env fs0 image).ret = resp.content := by
  have hn : ¬ ((resp.content.strip).length < 100) := by omega
  cases image with
  | null => simp [ImageInput.isValidImage] at himg
  | other d => simp [ImageInput.isValidImage] at himg
  | array a => simp [analyze_medical_image, analyzeDecoded, hsave, hrun, hn]
  | pil img => simp [analyze_medical_image, analyzeDecoded, hsave, hrun, hn]

theorem C5_witness :
    (md200.length = 200) ∧ (100 ≤ (md200.strip).length) ∧
    (analyze_medical_image ⟨none, .ok ⟨md200⟩⟩ none
        (.array ⟨10, 10, 0, 0⟩)).ret = md200 :=
  ⟨by decide, by decide,
    C5_long_response_returned_unmodified ⟨none, .ok ⟨md200⟩⟩ none
      (.array ⟨10, 10, 0, 0⟩) ⟨md200⟩ (by decide) rfl rfl (by decide)⟩

/-- C7: if the save or the external call raises an exception with text `m`,
the handler catches it, returns the formatted error string containing `m`,
and the transient file is gone on return. -/
theorem C7_exception_caught (env : Env) (fs0 : Option SavedFile)
    (image : ImageInput) (m : String)
    (himg : image.isValidImage = true)
    (hexc : env.saveExc = some m ∨
      (env.saveExc = none ∧ env.modelResult = .exc m)) :
    (analyze_medical_image env fs0 image).ret =
        "Error during analysis: " ++ m ∧
      (analyze_medical_image env fs0 image).temp = none := by
  cases image with
  | null => simp [ImageInput.isValidImage] at himg
  | other d => simp [ImageInput.isValidImage] at himg
  | array a =>
      rcases hexc with h | ⟨h1, h2⟩
      · constructor <;> simp [analyze_medical_image, analyzeDecoded, h]
      · constructor <;> simp [analyze_medical_image, analyzeDecoded, h1, h2]
  | pil img =>
      rcases hexc with h | ⟨h1, h2⟩
      · constructor <;> simp [analyze_medical_image, analyzeDecoded, h]
      · constructor <;> simp [analyze_medical_image, analyzeDecoded, h1, h2]

theorem C7_witness :
    ((ImageInput.pil ⟨"L", 5⟩).isValidImage = true) ∧
    ((analyze_medical_image ⟨none, .exc "Connection refused"⟩ (some ⟨"L", 9⟩)
          (.pil ⟨"L", 5⟩)).ret =
        "Error during analysis: " ++ "Connection refused" ∧
      (analyze_medical_image ⟨none, .exc "Connection refused"⟩ (some ⟨"L", 9⟩)
          (.pil ⟨"L", 5⟩)).temp = none) :=
  ⟨by decide, C7_exception_caught ⟨none, .exc "Connection refused"⟩
      (some ⟨"L", 9⟩) (.pil ⟨"L", 5⟩) "Connection refused" (by decide)
      (Or.inr ⟨rfl, rfl⟩)⟩

/-- C8 counterexample: a valid (non-`None`) numpy-array invocation in which
`img.save` raises (for instance, no space left on device) issues zero
external calls, so "exactly one call per valid invocation" fails. -/
theorem C8_counterexample :
    ((ImageInput.array ⟨10, 10, 0, 0⟩).isValidImage = true) ∧
    (analyze_medical_image ⟨some "No space left on device", .ok ⟨"ok"⟩⟩ none
        (.array ⟨10, 10, 0, 0⟩)).calls.length ≠ 1 := by
  constructor
  · decide
  · intro h
    simp [analyze_medical_image, analyzeDecoded] at h

theorem analyzeDecoded_calls_length (env : Env) (img0 : PILImage) :
    (analyzeDecoded env img0).calls.length ≤ 1 ∧
      (env.saveExc = none → (analyzeDecoded env img0).calls.length = 1) := by
  cases h : env.saveExc with
  | some e =>
      constructor
      · unfold analyzeDecoded
        rw [h]
        exact Nat.zero_le 1
      · intro hn
        exact Option.noConfusion hn
  | none =>
      have hc := analyzeDecoded_calls_of_save_ok env img0 h
      exact ⟨by simp [hc], fun _ => by simp [hc]⟩

/-- C8 (amended): each invocation on a recognized image makes at most one
external call — never a retry — and makes exactly one whenever the save of
the transient file succeeds; an exception raised before the call (during
the save) yields zero calls. -/
theorem C8_at_most_one_call (env : Env) (fs0 : Option SavedFile)
    (image : ImageInput) (himg : image.isValidImage = true) :
    (analyze_medical_image env fs0 image).calls.length ≤ 1 ∧
      (env.saveExc = none →
        (analyze_medical_image env fs0 image).calls.length = 1) := by
  cases image with
  | null => simp [ImageInput.isValidImage] at himg
  | other d => simp [ImageInput.isValidImage] at himg
  | array a => exact analyzeDecoded_calls_length env (Image.fromarray a)
  | pil img => exact analyzeDecoded_calls_length env img

theorem C8_witness :
    ((ImageInput.array ⟨8, 8, 3, 2⟩).isValidImage = true) ∧
    ((analyze_medical_image ⟨none, .exc "boom"⟩ none
          (.array ⟨8, 8, 3, 2⟩)).calls.length ≤ 1 ∧
      ((⟨none, .exc "boom"⟩ : Env).saveExc = none →
        (analyze_medical_image ⟨none, .exc "boom"⟩ none
          (.array ⟨8, 8, 3, 2⟩)).calls.length = 1)) :=
  ⟨by decide, C8_at_most_one_call ⟨none, .exc "boom"⟩ none
      (.array ⟨8, 8, 3, 2⟩) (by decide)⟩

/-- C9: the incomplete-response threshold is strict — a response whose
stripped length is exactly 100 is returned as content, not replaced by the
error string. -/
theorem C9_threshold_is_strict (env : Env) (fs0 : Option SavedFile)
    (image : ImageInput) (resp : RunResponse)
    (himg : image.isValidImage = true)
    (hsave : env.saveExc = none)
    (hrun : env.modelResult = .ok resp)
    (hlen : (resp.content.strip).length = 100) :
    (analyze_medical_image env fs0 image).ret = resp.content := by
  have hn : ¬ ((resp.content.strip).length < 100) := by omega
  cases image with
  | null => simp [ImageInput.isValidImage] at himg
  | other d => simp [ImageInput.isValidImage] at himg
  | array a => simp [analyze_medical_image, analyzeDecoded, hsave, hrun, hn]
  | pil img => simp [analyze_medical_image, analyzeDecoded, hsave, hrun, hn]

theorem C9_witness :
    ((summary100.strip).length = 100) ∧
    (analyze_medical_image ⟨none, .ok ⟨summary100⟩⟩ none
        (.array ⟨10, 10, 0, 0⟩)).ret = summary100 :=
  ⟨by decide,
    C9_threshold_is_strict ⟨none, .ok ⟨summary100⟩⟩ none
      (.array ⟨10, 10, 0, 0⟩) ⟨summary100⟩ (by decide) rfl rfl (by decide)⟩

theorem error_prefix_ne_incomplete (m : String) :
    "Error during analysis: " ++ m ≠
      "Error: Analysis seems incomplete. Please try again." := by
  intro h
  have hd := congrArg String.data h
  rw [String.data_append] at hd
  have h23 := congrArg (List.take 23) hd
  rw [List.take_append_of_le_length (by decide)] at h23
  exact absurd h23 (by decide)

/-- C10: the minimum-length validation never applies to the locally built
exception message — when the external call raises, the formatted error
string is returned as-is even when its stripped length is below 100, and it
is never the incomplete-response error string. -/
theorem C10_error_string_not_length_checked (env : Env)
    (fs0 : Option SavedFile) (image : ImageInput) (m : String)
    (himg : image.isValidImage = true)
    (hsave : env.saveExc = none)
    (hrun : env.modelResult = .exc m)
    (hshort : ((("Error during analysis: " ++ m).strip)).length < 100) :
    (analyze_medical_image env fs0 image).ret =
        "Error during analysis: " ++ m ∧
      (analyze_medical_image env fs0 image).ret ≠
        "Error: Analysis seems incomplete. Please try again." := by
  have hret : (analyze_medical_image env fs0 image).ret =
      "Error during analysis: " ++ m := by
    cases image with
    | null => simp [ImageInput.isValidImage] at himg
    | other d => simp [ImageInput.isValidImage] at himg
    | array a => simp [analyze_medical_image, analyzeDecoded, hsave, hrun]
    | pil img => simp [analyze_medical_image, analyzeDecoded, hsave, hrun]
  refine ⟨hret, ?_⟩
  rw [hret]
  exact error_prefix_ne_incomplete m

theorem C10_witness :
    (((("Error during analysis: " ++ "Read timed out.").strip)).length < 100) ∧
    ((analyze_medical_image ⟨none, .exc "Read timed out."⟩ none
          (.array ⟨4, 4, 4, 1⟩)).ret =
        "Error during analysis: " ++ "Read timed out." ∧
      (analyze_medical_image ⟨none, .exc "Read timed out."⟩ none
          (.array ⟨4, 4, 4, 1⟩)).ret ≠
        "Error: Analysis seems incomplete. Please try again.") :=
  ⟨by decide, C10_error_string_not_length_checked ⟨none, .exc "Read timed out."⟩
      none (.array ⟨4, 4, 4, 1⟩) "Read timed out." (by decide) rfl rfl
      (by decide)⟩
